import Mathlib

/-!
Verification of the ProxiPy real-time control and actuation stack.

This file shallowly embeds the parts of the repository relevant to the
claims under scrutiny:

* `src/classes/Controllers.py` — the `LinearQuadraticRegulator` class:
  duty-cycle allocation (`optimize_duty_cycle_fast`), thrust-decay model
  (`_calculate_thrust_decay`), geometry matrix (`_make_H_with_decay`),
  yaw-error wrapping and control gating (`compute_control`), and the
  uninitialized-signal fault of `compute_duty_cycle`.
* `src/classes/Thrusters.py` — the per-channel accessors and the final
  channel states of the PWM worker loops after a stop request.
* `src/tools/utils.py` — the phase tracker closure (`create_phase_tracker`).
* `src/main/main.py` — the phase-membership control gating.

Rational arithmetic stands in for Python floats wherever the code only
adds, multiplies, compares and clamps; the yaw wrap involves π and is
embedded over ℝ.  External library calls (`np.linalg.pinv`, the Riccati
solve producing the gain `K`) are modelled as parameters: every claim
below is quantified over their possible outputs.
-/

namespace ProxiPy

/-! ### Allocator: `LinearQuadraticRegulator` (src/classes/Controllers.py) -/

/-- `self.valve_time = 0.007` — minimum valve open time in seconds
(Controllers.py line 23). -/
def valve_time : ℚ := 7 / 1000

/-- Default `pwm_freq=5` (Controllers.py line 6; `main.py` constructs the
controllers without overriding it). -/
def pwm_freq : ℚ := 5

/-- `self.min_duty_cycle = self.valve_time * self.pwm_freq`
(Controllers.py line 24). -/
def min_duty_cycle : ℚ := valve_time * pwm_freq

/-- `np.clip(x, 0, 1.0)` for a scalar entry (Controllers.py line 224). -/
def clip01 (x : ℚ) : ℚ := min (max x 0) 1

/-- The post-processing stage of `optimize_duty_cycle_fast`
(Controllers.py lines 221–227): the pseudo-inverse solution
`np.linalg.pinv(H) @ u_desired` is an external library call, so it enters
here as the argument `pinvHu`; the function then applies
`np.clip(duty_cycles, 0, 1.0)` and zeroes every entry with
`duty_cycles[duty_cycles < self.min_duty_cycle] = 0.0`. -/
def optimize_duty_cycle_fast (pinvHu : Fin 8 → ℚ) : Fin 8 → ℚ :=
  fun i =>
    let c := clip01 (pinvHu i)
    if c < min_duty_cycle then 0 else c

/-- `_calculate_thrust_decay(duty_cycles)` (Controllers.py lines 257–269):
count the entries `> 0`; if none, return `1.0`; otherwise
`mean_duty = np.sum(duty_cycles) / active_thrusters` and
`decay_factor = max(0.8, 1.0 - 0.15 * mean_duty)`. -/
def calculate_thrust_decay (duty_cycles : Fin 8 → ℚ) : ℚ :=
  let active_thrusters := (Finset.univ.filter (fun i => 0 < duty_cycles i)).card
  if active_thrusters = 0 then 1
  else max (8/10) (1 - (15/100) * ((∑ i, duty_cycles i) / active_thrusters))

/-- Thruster direction cosines `V1` (Controllers.py line 248). -/
def V1 : Fin 8 → ℚ := ![-1, -1, 0, 0, 1, 1, 0, 0]

/-- Thruster direction cosines `V2` (Controllers.py line 249). -/
def V2 : Fin 8 → ℚ := ![0, 0, 1, 1, 0, 0, -1, -1]

/-- `_make_H_with_decay(decay_factor)` (Controllers.py lines 238–255):
`H1 = [V1 | V2 | dist2CG/1000]ᵀ`, `H2 = diag(F * decay / 2)`, result
`H1 @ H2`, a 3×8 matrix.  Row `r`, column `j`. -/
def make_H_with_decay (dist F : Fin 8 → ℚ) (decay : ℚ) :
    Fin 3 → Fin 8 → ℚ :=
  fun r j => (![V1 j, V2 j, dist j / 1000] r) * (F j * decay / 2)

/-- Matrix–vector product `H @ d` for the 3×8 geometry matrix. -/
def mulVec3 (H : Fin 3 → Fin 8 → ℚ) (d : Fin 8 → ℚ) : Fin 3 → ℚ :=
  fun r => ∑ j, H r j * d j

/-- The tail of `optimize_duty_cycle_fast` (Controllers.py lines 229–234):
after the duty cycles are fixed, the decay factor is recomputed from them
and the achievable ("saturated") body-frame signal is
`H_decayed @ duty_cycles` with the *new* decay. -/
def saturated_signal_after_alloc (dist F : Fin 8 → ℚ) (pinvHu : Fin 8 → ℚ) :
    Fin 3 → ℚ :=
  let duty := optimize_duty_cycle_fast pinvHu
  mulVec3 (make_H_with_decay dist F (calculate_thrust_decay duty)) duty

end ProxiPy

namespace ProxiPy

/-- C1 helper: the duty vector coming out of allocation, entrywise facts. -/
theorem optimize_duty_cycle_fast_entry (pinvHu : Fin 8 → ℚ) (i : Fin 8) :
    optimize_duty_cycle_fast pinvHu i = 0 ∨
      (min_duty_cycle ≤ optimize_duty_cycle_fast pinvHu i ∧
        optimize_duty_cycle_fast pinvHu i ≤ 1) := by
  unfold optimize_duty_cycle_fast
  by_cases h : clip01 (pinvHu i) < min_duty_cycle
  · left; simp [h]
  · right
    simp only [h, if_false]
    refine ⟨le_of_not_lt h, ?_⟩
    unfold clip01
    exact min_le_right _ _

end ProxiPy

/-- **C1.** For every desired body-frame control signal (hence for every
pseudo-inverse solution vector produced from it), the duty-cycle vector
returned by `optimize_duty_cycle_fast` has all 8 entries in [0,1], and
every entry below the minimum-on-time fraction
`valve_time * pwm_freq = 0.035` is exactly 0. -/
theorem C1_duty_cycles_in_range_and_min_on_time :
    ProxiPy.min_duty_cycle = 35 / 1000 ∧
    ∀ (pinvHu : Fin 8 → ℚ) (i : Fin 8),
      0 ≤ ProxiPy.optimize_duty_cycle_fast pinvHu i ∧
      ProxiPy.optimize_duty_cycle_fast pinvHu i ≤ 1 ∧
      (ProxiPy.optimize_duty_cycle_fast pinvHu i < ProxiPy.min_duty_cycle →
        ProxiPy.optimize_duty_cycle_fast pinvHu i = 0) := by
  constructor
  · norm_num [ProxiPy.min_duty_cycle, ProxiPy.valve_time, ProxiPy.pwm_freq]
  · intro pinvHu i
    rcases ProxiPy.optimize_duty_cycle_fast_entry pinvHu i with h | ⟨h1, h2⟩
    · refine ⟨le_of_eq h.symm, ?_, fun _ => h⟩
      rw [h]; norm_num
    · refine ⟨le_trans (by norm_num [ProxiPy.min_duty_cycle, ProxiPy.valve_time, ProxiPy.pwm_freq]) h1, h2, fun hlt => absurd hlt (not_lt.mpr h1)⟩

namespace ProxiPy

/-- The set of active thrusters of a duty vector: indices with duty `> 0`
(`np.sum(duty_cycles > 0)` in `_calculate_thrust_decay`). -/
def activeSet (d : Fin 8 → ℚ) : Finset (Fin 8) :=
  Finset.univ.filter (fun i => 0 < d i)

theorem calculate_thrust_decay_eq (d : Fin 8 → ℚ) :
    calculate_thrust_decay d =
      if (activeSet d).card = 0 then 1
      else max (8/10) (1 - (15/100) * ((∑ i, d i) / (activeSet d).card)) := rfl

/-- With nonnegative entries, the total duty equals the duty summed over
the active thrusters only (inactive entries are exactly 0). -/
theorem sum_duty_eq_sum_active (d : Fin 8 → ℚ) (h0 : ∀ i, 0 ≤ d i) :
    ∑ i, d i = ∑ i ∈ activeSet d, d i := by
  unfold activeSet
  rw [Finset.sum_filter]
  refine Finset.sum_congr rfl (fun i _ => ?_)
  by_cases hi : 0 < d i
  · simp [hi]
  · simp [hi, le_antisymm (not_lt.mp hi) (h0 i)]

/-- With entries in [0,1] and at least one active thruster, the mean duty
over active thrusters lies in [0,1]. -/
theorem mean_duty_bounds (d : Fin 8 → ℚ)
    (h : ∀ i, 0 ≤ d i ∧ d i ≤ 1) (hA : (activeSet d).card ≠ 0) :
    0 ≤ (∑ i, d i) / (activeSet d).card ∧
      (∑ i, d i) / (activeSet d).card ≤ 1 := by
  have hcpos : (0:ℚ) < (activeSet d).card := by
    exact_mod_cast Nat.pos_of_ne_zero hA
  have hsum : ∑ i, d i = ∑ i ∈ activeSet d, d i :=
    sum_duty_eq_sum_active d (fun i => (h i).1)
  constructor
  · apply div_nonneg _ (le_of_lt hcpos)
    exact Finset.sum_nonneg (fun i _ => (h i).1)
  · rw [div_le_one hcpos, hsum]
    calc ∑ i ∈ activeSet d, d i ≤ ∑ _i ∈ activeSet d, (1:ℚ) :=
          Finset.sum_le_sum (fun i _ => (h i).2)
      _ = (activeSet d).card := by simp

end ProxiPy

/-- **C3.** For every duty-cycle vector (8 entries in [0,1]), the decay
factor computed by `_calculate_thrust_decay` lies in [0.8, 1.0]; it equals
1.0 when no entry is positive, and otherwise equals
`max(0.8, 1 − 0.15 × mean duty over the positive entries)`. -/
theorem C3_thrust_decay_range (d : Fin 8 → ℚ)
    (h : ∀ i, 0 ≤ d i ∧ d i ≤ 1) :
    8/10 ≤ ProxiPy.calculate_thrust_decay d ∧
    ProxiPy.calculate_thrust_decay d ≤ 1 ∧
    ((∀ i, ¬ 0 < d i) → ProxiPy.calculate_thrust_decay d = 1) ∧
    ((∃ i, 0 < d i) → ProxiPy.calculate_thrust_decay d =
      max (8/10) (1 - (15/100) *
        ((∑ i ∈ ProxiPy.activeSet d, d i) / (ProxiPy.activeSet d).card))) := by
  rw [ProxiPy.calculate_thrust_decay_eq]
  by_cases hA : (ProxiPy.activeSet d).card = 0
  · rw [if_pos hA]
    refine ⟨by norm_num, le_refl 1, fun _ => rfl, fun ⟨i, hi⟩ => ?_⟩
    exfalso
    have hmem : i ∈ ProxiPy.activeSet d := by
      simp [ProxiPy.activeSet, hi]
    have hpos := Finset.card_pos.mpr ⟨i, hmem⟩
    omega
  · rw [if_neg hA]
    obtain ⟨hm0, hm1⟩ := ProxiPy.mean_duty_bounds d h hA
    refine ⟨le_max_left _ _, ?_, ?_, ?_⟩
    · apply max_le (by norm_num)
      nlinarith
    · intro hnone
      exfalso
      apply hA
      apply Finset.card_eq_zero.mpr
      apply Finset.filter_eq_empty_iff.mpr
      exact fun i _ => hnone i
    · intro _
      rw [ProxiPy.sum_duty_eq_sum_active d (fun i => (h i).1)]

/-- Witness for C3 at the concrete duty vector (1/2, 0, …, 0). -/
theorem C3_thrust_decay_range_witness :
    8/10 ≤ ProxiPy.calculate_thrust_decay ![1/2, 0, 0, 0, 0, 0, 0, 0] ∧
    ProxiPy.calculate_thrust_decay ![1/2, 0, 0, 0, 0, 0, 0, 0] ≤ 1 := by
  have h := C3_thrust_decay_range ![1/2, 0, 0, 0, 0, 0, 0, 0]
    (by intro i; fin_cases i <;> norm_num)
  exact ⟨h.1, h.2.1⟩

namespace ProxiPy

/-- Entries produced by allocation lie in [0,1]. -/
theorem optimize_duty_cycle_fast_bounds (pinvHu : Fin 8 → ℚ) (i : Fin 8) :
    0 ≤ optimize_duty_cycle_fast pinvHu i ∧
      optimize_duty_cycle_fast pinvHu i ≤ 1 := by
  rcases optimize_duty_cycle_fast_entry pinvHu i with h | ⟨h1, h2⟩
  · rw [h]; exact ⟨le_refl 0, by norm_num⟩
  · refine ⟨le_trans ?_ h1, h2⟩
    norm_num [min_duty_cycle, valve_time, pwm_freq]

end ProxiPy

/-- **C9.** Because every duty-cycle entry fed to `_calculate_thrust_decay`
is at most 1, the mean duty of active channels is at most 1 and the decay
factor is at least 0.85; the `max(0.8, ·)` lower clamp is never binding
(the decay equals the unclamped `1 − 0.15·mean` whenever any channel is
active), so the decay factor lies in [0.85, 1.0].  In particular this holds
for every duty vector produced by `optimize_duty_cycle_fast`. -/
theorem C9_decay_clamp_never_binding :
    (∀ d : Fin 8 → ℚ, (∀ i, 0 ≤ d i ∧ d i ≤ 1) →
      17/20 ≤ ProxiPy.calculate_thrust_decay d ∧
      ProxiPy.calculate_thrust_decay d ≤ 1 ∧
      ((ProxiPy.activeSet d).card ≠ 0 →
        ProxiPy.calculate_thrust_decay d =
          1 - (15/100) * ((∑ i, d i) / (ProxiPy.activeSet d).card))) ∧
    (∀ pinvHu : Fin 8 → ℚ,
      17/20 ≤ ProxiPy.calculate_thrust_decay
        (ProxiPy.optimize_duty_cycle_fast pinvHu)) := by
  have main : ∀ d : Fin 8 → ℚ, (∀ i, 0 ≤ d i ∧ d i ≤ 1) →
      17/20 ≤ ProxiPy.calculate_thrust_decay d ∧
      ProxiPy.calculate_thrust_decay d ≤ 1 ∧
      ((ProxiPy.activeSet d).card ≠ 0 →
        ProxiPy.calculate_thrust_decay d =
          1 - (15/100) * ((∑ i, d i) / (ProxiPy.activeSet d).card)) := by
    intro d h
    rw [ProxiPy.calculate_thrust_decay_eq]
    by_cases hA : (ProxiPy.activeSet d).card = 0
    · rw [if_pos hA]
      exact ⟨by norm_num, le_refl 1, fun hcon => absurd hA hcon⟩
    · rw [if_neg hA]
      obtain ⟨hm0, hm1⟩ := ProxiPy.mean_duty_bounds d h hA
      have hge : (17:ℚ)/20 ≤ 1 - (15/100) * ((∑ i, d i) / (ProxiPy.activeSet d).card) := by
        nlinarith
      have hmax : max ((8:ℚ)/10) (1 - (15/100) * ((∑ i, d i) / (ProxiPy.activeSet d).card)) =
          1 - (15/100) * ((∑ i, d i) / (ProxiPy.activeSet d).card) :=
        max_eq_right (le_trans (by norm_num) hge)
      rw [hmax]
      exact ⟨hge, by nlinarith, fun _ => rfl⟩
  exact ⟨main, fun pinvHu =>
    (main _ (fun i => ProxiPy.optimize_duty_cycle_fast_bounds pinvHu i)).1⟩

/-- Witness for C9 at the all-ones duty vector (decay = 0.85 exactly). -/
theorem C9_decay_clamp_never_binding_witness :
    17/20 ≤ ProxiPy.calculate_thrust_decay ![1, 1, 1, 1, 1, 1, 1, 1] ∧
    ProxiPy.calculate_thrust_decay ![1, 1, 1, 1, 1, 1, 1, 1] ≤ 1 := by
  have h := C9_decay_clamp_never_binding.1 ![1, 1, 1, 1, 1, 1, 1, 1]
    (by intro i; fin_cases i <;> norm_num)
  exact ⟨h.1, h.2.1⟩

namespace ProxiPy

/-- Concrete lever-arm vector (mm) used to exercise the allocator. -/
def allocDist : Fin 8 → ℚ := fun _ => 1000

/-- Concrete per-thruster maximum force used to exercise the allocator
(chosen so that `F * decay / 2 = decay`). -/
def allocF : Fin 8 → ℚ := fun _ => 2

/-- A concrete pseudo-inverse solution vector: all entries lie in
`[min_duty_cycle, 1]`, so allocation neither clips nor zeroes any of
them. -/
def allocRaw : Fin 8 → ℚ := ![1/10, 1/10, 1/5, 1/5, 3/10, 3/10, 1/10, 1/10]

/-- The desired body-frame signal that `allocRaw` reproduces exactly under
decay factor 1.0: `H(1) @ allocRaw`. -/
def allocU : Fin 3 → ℚ := ![2/5, 1/5, 7/5]

theorem allocRaw_fixed : optimize_duty_cycle_fast allocRaw = allocRaw := by
  funext i
  fin_cases i <;>
    norm_num [optimize_duty_cycle_fast, clip01, min_duty_cycle, valve_time,
      pwm_freq, allocRaw]

theorem allocRaw_active : activeSet allocRaw = Finset.univ := by
  ext i
  simp only [activeSet, Finset.mem_filter, Finset.mem_univ, true_and,
    iff_true]
  fin_cases i <;> norm_num [allocRaw]

theorem allocRaw_decay : calculate_thrust_decay allocRaw = 779/800 := by
  rw [calculate_thrust_decay_eq, allocRaw_active]
  have hsum : ∑ i, allocRaw i = 7/5 := by
    simp [allocRaw, Fin.sum_univ_succ]
    norm_num
  rw [hsum]
  simp only [Finset.card_univ, Fintype.card_fin]
  rw [max_eq_right (by norm_num)]
  norm_num

theorem allocRaw_reproduces :
    mulVec3 (make_H_with_decay allocDist allocF 1) allocRaw = allocU := by
  funext r
  fin_cases r <;>
    · simp [mulVec3, make_H_with_decay, V1, V2, allocDist, allocF, allocRaw,
        allocU, Fin.sum_univ_succ]
      norm_num

end ProxiPy

/-- **C5, counterexample.** A concrete allocation in which no duty value
is clipped or zeroed (the pseudo-inverse solution is returned unchanged)
and which reproduces the desired body-frame signal exactly under decay
1.0 — yet the achievable signal recomputed after allocation is *not* equal
to the desired signal, because the decay factor is recomputed from the
resulting duty vector (here 0.97375) before the achievable signal is
formed. -/
theorem C5_round_trip_counterexample :
    ProxiPy.optimize_duty_cycle_fast ProxiPy.allocRaw = ProxiPy.allocRaw ∧
    ProxiPy.mulVec3 (ProxiPy.make_H_with_decay ProxiPy.allocDist ProxiPy.allocF 1)
      ProxiPy.allocRaw = ProxiPy.allocU ∧
    ProxiPy.saturated_signal_after_alloc ProxiPy.allocDist ProxiPy.allocF
      ProxiPy.allocRaw ≠ ProxiPy.allocU := by
  refine ⟨ProxiPy.allocRaw_fixed, ProxiPy.allocRaw_reproduces, fun heq => ?_⟩
  have h0 := congrFun heq 0
  rw [ProxiPy.saturated_signal_after_alloc] at h0
  rw [ProxiPy.allocRaw_fixed, ProxiPy.allocRaw_decay] at h0
  simp [ProxiPy.mulVec3, ProxiPy.make_H_with_decay, ProxiPy.V1, ProxiPy.V2,
    ProxiPy.allocDist, ProxiPy.allocF, ProxiPy.allocRaw, ProxiPy.allocU,
    Fin.sum_univ_succ] at h0
  norm_num at h0

/-- **C5, amended.** When no duty value is clipped or zeroed (the
pseudo-inverse solution passes through allocation unchanged), the
achievable (saturated) body-frame signal equals the *recomputed* decay
factor times the desired body-frame signal `H(1) @ duty`; it equals the
desired signal itself only when that recomputed factor is 1. -/
theorem C5_round_trip_scaled (dist F raw : Fin 8 → ℚ)
    (h : ProxiPy.optimize_duty_cycle_fast raw = raw) :
    ProxiPy.saturated_signal_after_alloc dist F raw =
      fun r => ProxiPy.calculate_thrust_decay raw *
        ProxiPy.mulVec3 (ProxiPy.make_H_with_decay dist F 1) raw r := by
  funext r
  rw [ProxiPy.saturated_signal_after_alloc]
  rw [h]
  unfold ProxiPy.mulVec3 ProxiPy.make_H_with_decay
  rw [Finset.mul_sum]
  refine Finset.sum_congr rfl (fun j _ => ?_)
  ring

/-- Witness for the amended C5 at the concrete allocation instance. -/
theorem C5_round_trip_scaled_witness :
    ProxiPy.saturated_signal_after_alloc ProxiPy.allocDist ProxiPy.allocF
      ProxiPy.allocRaw =
      fun r => ProxiPy.calculate_thrust_decay ProxiPy.allocRaw *
        ProxiPy.mulVec3
          (ProxiPy.make_H_with_decay ProxiPy.allocDist ProxiPy.allocF 1)
          ProxiPy.allocRaw r :=
  C5_round_trip_scaled ProxiPy.allocDist ProxiPy.allocF ProxiPy.allocRaw
    ProxiPy.allocRaw_fixed

namespace ProxiPy

/-! ### Yaw-error wrapping (`compute_control`, Controllers.py line 104) -/

/-- Python's float modulo `x % y` (for a positive modulus `y`, the result
takes the sign of `y`): `x - y * floor(x / y)`. -/
noncomputable def pymod (x y : ℝ) : ℝ := x - y * ⌊x / y⌋

/-- `error_attitude = (state[2] - target[2] + np.pi) % (2 * np.pi) - np.pi`
(Controllers.py line 104). -/
noncomputable def wrap_yaw_error (state2 target2 : ℝ) : ℝ :=
  pymod (state2 - target2 + Real.pi) (2 * Real.pi) - Real.pi

theorem pymod_eq_fract (x y : ℝ) (hy : y ≠ 0) :
    pymod x y = y * Int.fract (x / y) := by
  unfold pymod Int.fract
  field_simp

theorem pymod_bounds (x y : ℝ) (hy : 0 < y) :
    0 ≤ pymod x y ∧ pymod x y < y := by
  rw [pymod_eq_fract x y (ne_of_gt hy)]
  exact ⟨mul_nonneg hy.le (Int.fract_nonneg _),
    mul_lt_of_lt_one_right hy (Int.fract_lt_one _)⟩

end ProxiPy

/-- **C2, counterexample.** At state.yaw = π and target.yaw = 0 the wrapped
yaw error computed in `compute_control` is exactly −π, which does *not*
lie in the half-open interval (−π, π] asserted by the claim. -/
theorem C2_yaw_wrap_counterexample :
    ProxiPy.wrap_yaw_error Real.pi 0 = -Real.pi ∧
    ¬(-Real.pi < ProxiPy.wrap_yaw_error Real.pi 0 ∧
      ProxiPy.wrap_yaw_error Real.pi 0 ≤ Real.pi) := by
  have h2pi : (0:ℝ) < 2 * Real.pi := by positivity
  have harg : Real.pi - 0 + Real.pi = 2 * Real.pi := by ring
  have hdiv : (2 * Real.pi) / (2 * Real.pi) = (1:ℝ) :=
    div_self (ne_of_gt h2pi)
  have hmod : ProxiPy.pymod (2 * Real.pi) (2 * Real.pi) = 0 := by
    unfold ProxiPy.pymod
    rw [hdiv]
    norm_num
  have hval : ProxiPy.wrap_yaw_error Real.pi 0 = -Real.pi := by
    unfold ProxiPy.wrap_yaw_error
    rw [harg, hmod]
    ring
  exact ⟨hval, fun ⟨hlt, _⟩ => absurd (hval ▸ hlt) (lt_irrefl _)⟩

/-- **C2, amended.** For every pair of state and target yaw values, the
wrapped yaw error computed in `compute_control` lies in the half-open
interval [−π, π) (closed at −π, open at π — Python's `%` returns values in
`[0, 2π)`); for state.yaw = 3.0 and target.yaw = −3.0 the error is exactly
6 − 2π ≈ −0.283, not 6.0. -/
theorem C2_yaw_wrap_range :
    (∀ state2 target2 : ℝ,
      -Real.pi ≤ ProxiPy.wrap_yaw_error state2 target2 ∧
      ProxiPy.wrap_yaw_error state2 target2 < Real.pi) ∧
    ProxiPy.wrap_yaw_error 3 (-3) = 6 - 2 * Real.pi ∧
    |ProxiPy.wrap_yaw_error 3 (-3) + 283/1000| < 1/1000 := by
  have h2pi : (0:ℝ) < 2 * Real.pi := by positivity
  have hrange : ∀ state2 target2 : ℝ,
      -Real.pi ≤ ProxiPy.wrap_yaw_error state2 target2 ∧
      ProxiPy.wrap_yaw_error state2 target2 < Real.pi := by
    intro s t
    obtain ⟨h0, h1⟩ := ProxiPy.pymod_bounds (s - t + Real.pi) (2 * Real.pi) h2pi
    unfold ProxiPy.wrap_yaw_error
    constructor <;> linarith
  have hgt : (3.141592 : ℝ) < Real.pi := Real.pi_gt_d6
  have hlt : Real.pi < 3.141593 := Real.pi_lt_d6
  have hfloor : ⌊(3 - (-3 : ℝ) + Real.pi) / (2 * Real.pi)⌋ = 1 := by
    rw [Int.floor_eq_iff]
    push_cast
    constructor
    · rw [le_div_iff₀ h2pi]
      nlinarith
    · rw [div_lt_iff₀ h2pi]
      nlinarith
  have hval : ProxiPy.wrap_yaw_error 3 (-3) = 6 - 2 * Real.pi := by
    unfold ProxiPy.wrap_yaw_error ProxiPy.pymod
    rw [hfloor]
    push_cast
    ring
  refine ⟨hrange, hval, ?_⟩
  rw [hval, abs_lt]
  constructor <;> nlinarith

namespace ProxiPy

/-! ### Phase tracker (`create_phase_tracker`, src/tools/utils.py 340–378) -/

/-- The loop computing `transition_points` (utils.py lines 351–356):
walking the phase durations in index order, each phase's start time is the
running total *before* its own duration is added
(`current_time - phases[phase_key]` after `current_time += ...`). -/
def phase_starts_from (current_time : ℚ) : List ℚ → List ℚ
  | [] => []
  | d :: rest => current_time :: phase_starts_from (current_time + d) rest

/-- Start times of all phases, accumulated from 0. -/
def phase_starts (durations : List ℚ) : List ℚ :=
  phase_starts_from 0 durations

/-- The scan inside `track_phase` (utils.py lines 365–368): iterate the
`(phase, start_time)` pairs in index order and keep the last phase whose
start time is `≤ current_time`. -/
def current_phase_scan (t : ℚ) : List ℚ → ℕ → Option ℕ → Option ℕ
  | [], _, acc => acc
  | s :: rest, i, acc =>
      current_phase_scan t rest (i + 1) (if s ≤ t then some i else acc)

/-- `current_phase` as determined by one `track_phase(current_time)` call. -/
def current_phase (starts : List ℚ) (t : ℚ) : Option ℕ :=
  current_phase_scan t starts 0 none

/-- One `track_phase(current_time)` call (utils.py lines 359–373): given
the remembered `last_phase` (initially −1), fire the one-time transition
print and advance the cursor exactly when the computed phase is defined
and exceeds the cursor.  Returns the new cursor and whether the side
effect fired. -/
def track_phase (starts : List ℚ) (t : ℚ) (last_phase : ℤ) : ℤ × Bool :=
  match current_phase starts t with
  | none => (last_phase, false)
  | some p => if last_phase < (p : ℤ) then ((p : ℤ), true) else (last_phase, false)

/-- The phase cursor never moves backward, whatever the elapsed time. -/
theorem track_phase_mono (starts : List ℚ) (t : ℚ) (last : ℤ) :
    last ≤ (track_phase starts t last).1 := by
  unfold track_phase
  cases current_phase starts t with
  | none => exact le_refl last
  | some p =>
    dsimp only
    split
    · next h => exact le_of_lt h
    · exact le_refl last

/-- The transition side effect fires in a call exactly when that call
strictly advances the cursor. -/
theorem track_phase_fires_iff (starts : List ℚ) (t : ℚ) (last : ℤ) :
    (track_phase starts t last).2 = true ↔
      last < (track_phase starts t last).1 := by
  unfold track_phase
  cases current_phase starts t with
  | none => simp
  | some p =>
    dsimp only
    split
    · next h => simpa using h
    · next h => simp [h]

end ProxiPy

/-- **C4.** The phase cursor is monotonically non-decreasing under any
sequence of `track` calls, and the transition side effect fires exactly
when the cursor crosses into a new phase (hence exactly once per crossing,
and never twice for the same phase).  With durations [5,5,40,170,30,20]
(start times [0,5,10,50,220,250]), `track(4.9)` from the initial cursor −1
lands on phase 0, `track(5.1)` then on phase 1, and `track(260)` then on
the terminal phase 5, each firing its transition once. -/
theorem C4_phase_tracker_monotone_and_fires :
    (∀ (starts : List ℚ) (t : ℚ) (last : ℤ),
      last ≤ (ProxiPy.track_phase starts t last).1) ∧
    (∀ (starts : List ℚ) (t : ℚ) (last : ℤ),
      ((ProxiPy.track_phase starts t last).2 = true ↔
        last < (ProxiPy.track_phase starts t last).1)) ∧
    ProxiPy.phase_starts [5, 5, 40, 170, 30, 20] = [0, 5, 10, 50, 220, 250] ∧
    ProxiPy.track_phase (ProxiPy.phase_starts [5, 5, 40, 170, 30, 20])
      (49/10) (-1) = (0, true) ∧
    ProxiPy.track_phase (ProxiPy.phase_starts [5, 5, 40, 170, 30, 20])
      (51/10) 0 = (1, true) ∧
    ProxiPy.track_phase (ProxiPy.phase_starts [5, 5, 40, 170, 30, 20])
      260 1 = (5, true) := by
  have hstarts : ProxiPy.phase_starts [5, 5, 40, 170, 30, 20] =
      [0, 5, 10, 50, 220, 250] := by
    norm_num [ProxiPy.phase_starts, ProxiPy.phase_starts_from]
  refine ⟨ProxiPy.track_phase_mono, ProxiPy.track_phase_fires_iff, hstarts,
    ?_, ?_, ?_⟩ <;>
    · rw [hstarts]
      norm_num [ProxiPy.track_phase, ProxiPy.current_phase,
        ProxiPy.current_phase_scan]

namespace ProxiPy

/-! ### Controller state and `compute_duty_cycle` (Controllers.py 141–149) -/

/-- The mutable fields of `LinearQuadraticRegulator` touched by
`compute_duty_cycle`: the body-frame control signal (set by
`compute_control_body_frame`, `None` until then), the stored duty cycles
(`None` until the first allocation), the decay factor (initially 1.0) and
the saturated body-frame signal. -/
structure ControllerState where
  controlSignalBodyFrame : Option (Fin 3 → ℚ)
  dutyCycle : Option (Fin 8 → ℚ)
  current_decay_factor : ℚ
  saturatedControlSignalBodyFrame : Option (Fin 3 → ℚ)

/-- `compute_duty_cycle` (Controllers.py lines 141–149): raises
`ValueError("Control signal in body frame not available")` when
`controlSignalBodyFrame is None` — before anything is written — and
otherwise runs `optimize_duty_cycle_fast` on the body-frame signal and
stores the duty vector, the recomputed decay factor and the saturated
signal.  `pinv decay u` stands for the external least-squares solve
`np.linalg.pinv(H(decay)) @ u`. -/
def compute_duty_cycle (dist F : Fin 8 → ℚ)
    (pinv : ℚ → (Fin 3 → ℚ) → Fin 8 → ℚ) (s : ControllerState) :
    Except String ControllerState :=
  match s.controlSignalBodyFrame with
  | none => .error "Control signal in body frame not available"
  | some u =>
      let duty := optimize_duty_cycle_fast (pinv s.current_decay_factor u)
      .ok { s with
        dutyCycle := some duty,
        current_decay_factor := calculate_thrust_decay duty,
        saturatedControlSignalBodyFrame :=
          some (mulVec3 (make_H_with_decay dist F (calculate_thrust_decay duty))
            duty) }

/-- The caller-observable outcome of one `compute_duty_cycle()` call: a
Python `raise` aborts the method before any assignment, so on failure the
object keeps its previous state and the error propagates to the caller. -/
def compute_duty_cycle_run (dist F : Fin 8 → ℚ)
    (pinv : ℚ → (Fin 3 → ℚ) → Fin 8 → ℚ) (s : ControllerState) :
    ControllerState × Option String :=
  match compute_duty_cycle dist F pinv s with
  | .ok s' => (s', none)
  | .error e => (s, some e)

end ProxiPy

/-- **C7.** `compute_duty_cycle` fails if and only if it is called before
any body-frame control signal has been computed
(`controlSignalBodyFrame is None`); the error is surfaced to the caller,
and a failing call leaves the stored duty cycle and decay factor (indeed
the whole controller state) unchanged. -/
theorem C7_uninitialized_signal_fault (dist F : Fin 8 → ℚ)
    (pinv : ℚ → (Fin 3 → ℚ) → Fin 8 → ℚ) (s : ProxiPy.ControllerState) :
    ((∃ e, ProxiPy.compute_duty_cycle dist F pinv s = .error e) ↔
      s.controlSignalBodyFrame = none) ∧
    (s.controlSignalBodyFrame = none →
      ProxiPy.compute_duty_cycle_run dist F pinv s =
        (s, some "Control signal in body frame not available")) := by
  constructor
  · constructor
    · rintro ⟨e, he⟩
      by_contra hne
      rcases hu : s.controlSignalBodyFrame with _ | u
      · exact hne hu
      · rw [ProxiPy.compute_duty_cycle, hu] at he
        exact Except.noConfusion he
    · intro hnone
      exact ⟨_, by rw [ProxiPy.compute_duty_cycle, hnone]⟩
  · intro hnone
    rw [ProxiPy.compute_duty_cycle_run, ProxiPy.compute_duty_cycle, hnone]

/-- Witness for C7: a freshly constructed controller state (no control
signal computed yet) makes `compute_duty_cycle` fail and leaves the state
untouched. -/
theorem C7_uninitialized_signal_fault_witness :
    ProxiPy.compute_duty_cycle_run (fun _ => 1000) (fun _ => 2)
      (fun _ _ _ => 0) ⟨none, none, 1, none⟩ =
      (⟨none, none, 1, none⟩, some "Control signal in body frame not available") :=
  (C7_uninitialized_signal_fault (fun _ => 1000) (fun _ => 2)
    (fun _ _ _ => 0) ⟨none, none, 1, none⟩).2 rfl

namespace ProxiPy

/-! ### `compute_control` gating and the main-loop phase policy -/

/-- The 6-component error of `compute_control` (Controllers.py lines
99–107): plain differences, except the yaw component which is wrapped by
`(state[2] - target[2] + np.pi) % (2*np.pi) - np.pi`. -/
noncomputable def control_error (state target : Fin 6 → ℝ) : Fin 6 → ℝ :=
  ![state 0 - target 0, state 1 - target 1,
    wrap_yaw_error (state 2) (target 2),
    state 3 - target 3, state 4 - target 4, state 5 - target 5]

/-- The inertial-frame control signal of `compute_control` (Controllers.py
lines 111–114): `-K @ error` when `enable_control` is set, the zero vector
otherwise.  `K` is the LQR gain produced by the external Riccati solve. -/
noncomputable def control_signal (K : Fin 3 → Fin 6 → ℝ)
    (enable_control : Bool) (state target : Fin 6 → ℝ) : Fin 3 → ℝ :=
  if enable_control then
    fun r => -(∑ j, K r j * control_error state target j)
  else
    fun _ => 0

/-- The main loop's phase policy (main.py lines 493–500): in phases 0, 1
and 5 `enable_control` is set to `False` on every controller, in all other
phases to `True`. -/
def phase_enables_control (p : ℤ) : Bool :=
  if p = 0 ∨ p = 1 ∨ p = 5 then false else true

end ProxiPy

/-- **C8.** `compute_control` produces the zero force/torque signal when
`enable_control` is false and `-K × error` (with wrapped yaw error) when
it is true, for every state and target; and the main loop disables control
exactly in phases 0, 1 and 5 and enables it in all other phases. -/
theorem C8_control_gating :
    (∀ (K : Fin 3 → Fin 6 → ℝ) (state target : Fin 6 → ℝ) (r : Fin 3),
      ProxiPy.control_signal K false state target r = 0) ∧
    (∀ (K : Fin 3 → Fin 6 → ℝ) (state target : Fin 6 → ℝ) (r : Fin 3),
      ProxiPy.control_signal K true state target r =
        -(∑ j, K r j * ProxiPy.control_error state target j)) ∧
    (∀ p : ℤ, ProxiPy.phase_enables_control p = false ↔
      (p = 0 ∨ p = 1 ∨ p = 5)) := by
  refine ⟨fun K s t r => rfl, fun K s t r => rfl, fun p => ?_⟩
  unfold ProxiPy.phase_enables_control
  split
  · next h => simpa using h
  · next h => simpa using h

namespace ProxiPy

/-! ### PWM worker loops and stop discipline (src/classes/Thrusters.py) -/

/-- Channel states at elapsed time `e` into one PWM cycle of
`_simulate_pwm_control_loop` (Thrusters.py lines 299–318): at the cycle
start a channel is ON iff its duty is positive; the inner poll loop turns
it OFF once the elapsed time reaches its ON-duration
`duty_cycles[i] * PERIOD`. -/
def sim_channel_states (duty : Fin 8 → ℚ) (period e : ℚ) : Fin 8 → Bool :=
  fun i => decide (0 < duty i) && decide (e < duty i * period)

/-- Final channel states reported after the simulated worker observes the
stop flag (Thrusters.py lines 290–325): both the inner poll loop and the
outer cycle loop simply exit when `running` goes false, and neither
`_simulate_pwm_control_loop` nor `stop()` (lines 95–124) writes
`current_states` afterwards — the states of the last poll before the stop
remain in place. -/
def sim_loop_final_states (duty : Fin 8 → ℚ) (period lastPoll : ℚ) :
    Fin 8 → Bool :=
  sim_channel_states duty period lastPoll

/-- Final channel states after the hardware worker
(`_pwm_control_loop`, Thrusters.py lines 208–281) exits: its `finally`
block drives every pin LOW and sets every `current_states[i] = False`,
whatever point of the cycle the stop interrupted. -/
def hw_loop_final_states (_duty : Fin 8 → ℚ) (_period _lastPoll : ℚ) :
    Fin 8 → Bool :=
  fun _ => false

end ProxiPy

/-- **C6.** The claim — `get_state(i)` is OFF for every channel after
`stop()` in either mode — holds for the experiment-mode worker (its
`finally` cleanup zeroes every channel), but *fails* in simulation mode:
`_simulate_pwm_control_loop` exits without any cleanup, so a channel whose
duty cycle is 1.0 and whose cycle was interrupted halfway (elapsed 0.1 s
of a 0.2 s period) still reports ON after `stop()` returns. -/
theorem C6_sim_stop_leaves_channel_on :
    (∀ (duty : Fin 8 → ℚ) (period lastPoll : ℚ) (i : Fin 8),
      ProxiPy.hw_loop_final_states duty period lastPoll i = false) ∧
    ProxiPy.sim_loop_final_states (fun _ => 1) (1/5) (1/10) 0 = true := by
  refine ⟨fun _ _ _ _ => rfl, ?_⟩
  rw [ProxiPy.sim_loop_final_states, ProxiPy.sim_channel_states]
  norm_num

namespace ProxiPy

/-! ### `Thrusters` per-channel accessors (Thrusters.py 126–181) -/

/-- The shared mutable state of a `Thrusters` instance: requested and
applied duty cycles, ON/OFF channel states, and the dirty flag.  On
construction all duty cycles are 0.0, all states False, the flag False
(Thrusters.py lines 44–50). -/
structure ThrustersState where
  requested_duty_cycles : Fin 8 → ℚ
  duty_cycles : Fin 8 → ℚ
  current_states : Fin 8 → Bool
  duty_cycle_updated : Bool

/-- A freshly constructed `Thrusters` shared state. -/
def thrusters_init : ThrustersState :=
  ⟨fun _ => 0, fun _ => 0, fun _ => false, false⟩

/-- `set_duty_cycle(thruster_index, duty_cycle)` (Thrusters.py lines
126–140): 1-based index check `1 <= thruster_index <= 8`; on success the
value is clamped by `max(0.0, min(1.0, duty_cycle))`, written to slot
`thruster_index - 1`, and the dirty flag is raised; otherwise
`ValueError` is raised before anything is written. -/
def set_duty_cycle (s : ThrustersState) (thruster_index : ℤ)
    (duty_cycle : ℚ) : Except String ThrustersState :=
  if 1 ≤ thruster_index ∧ thruster_index ≤ 8 then
    let clamped := max 0 (min 1 duty_cycle)
    .ok { s with
      requested_duty_cycles := fun j =>
        if (j : ℤ) = thruster_index - 1 then clamped
        else s.requested_duty_cycles j,
      duty_cycle_updated := true }
  else .error "Thruster index must be between 1 and 8"

/-- `get_state(thruster_index)` (Thrusters.py lines 157–164): 1-based
index check, then `current_states[thruster_index - 1]`. -/
def get_state (s : ThrustersState) (thruster_index : ℤ) :
    Except String Bool :=
  if h : 1 ≤ thruster_index ∧ thruster_index ≤ 8 then
    .ok (s.current_states ⟨(thruster_index - 1).toNat, by omega⟩)
  else .error "Thruster index must be between 1 and 8"

/-- `get_duty_cycle(thruster_index)` (Thrusters.py lines 170–177):
1-based index check, then `duty_cycles[thruster_index - 1]`. -/
def get_duty_cycle (s : ThrustersState) (thruster_index : ℤ) :
    Except String ℚ :=
  if h : 1 ≤ thruster_index ∧ thruster_index ≤ 8 then
    .ok (s.duty_cycles ⟨(thruster_index - 1).toNat, by omega⟩)
  else .error "Thruster index must be between 1 and 8"

/-- `set_all_duty_cycles(duty_cycles)` (Thrusters.py lines 142–155):
`ValueError` unless exactly 8 values are given; on success every value is
clamped into [0,1] and written, and the dirty flag is raised. -/
def set_all_duty_cycles (s : ThrustersState) (ds : List ℚ) :
    Except String ThrustersState :=
  if ds.length = 8 then
    .ok { s with
      requested_duty_cycles := fun j => max 0 (min 1 (ds.getD (j : ℕ) 0)),
      duty_cycle_updated := true }
  else .error "Must provide 8 duty cycle values"

end ProxiPy

/-- **C10.** Every per-channel accessor of `Thrusters` uses 1-based
channel indices: for channel `i` (0-based slot), index `i+1` succeeds and
addresses slot `i`, while any index outside 1..8 raises `ValueError` with
nothing written; `set_all_duty_cycles` raises unless given exactly 8
values; and every accepted duty value is clamped into [0,1] before being
stored. -/
theorem C10_accessors_one_based_and_clamped :
    (∀ (s : ProxiPy.ThrustersState) (i : Fin 8) (v : ℚ),
      ∃ s', ProxiPy.set_duty_cycle s ((i : ℤ) + 1) v = .ok s' ∧
        s'.requested_duty_cycles i = max 0 (min 1 v) ∧
        0 ≤ s'.requested_duty_cycles i ∧ s'.requested_duty_cycles i ≤ 1 ∧
        (∀ j, j ≠ i →
          s'.requested_duty_cycles j = s.requested_duty_cycles j) ∧
        s'.duty_cycles = s.duty_cycles ∧
        s'.current_states = s.current_states) ∧
    (∀ (s : ProxiPy.ThrustersState) (idx : ℤ) (v : ℚ),
      ¬(1 ≤ idx ∧ idx ≤ 8) →
      ProxiPy.set_duty_cycle s idx v =
        .error "Thruster index must be between 1 and 8") ∧
    (∀ (s : ProxiPy.ThrustersState) (i : Fin 8),
      ProxiPy.get_state s ((i : ℤ) + 1) = .ok (s.current_states i)) ∧
    (∀ (s : ProxiPy.ThrustersState) (idx : ℤ),
      ¬(1 ≤ idx ∧ idx ≤ 8) →
      ProxiPy.get_state s idx =
        .error "Thruster index must be between 1 and 8") ∧
    (∀ (s : ProxiPy.ThrustersState) (i : Fin 8),
      ProxiPy.get_duty_cycle s ((i : ℤ) + 1) = .ok (s.duty_cycles i)) ∧
    (∀ (s : ProxiPy.ThrustersState) (idx : ℤ),
      ¬(1 ≤ idx ∧ idx ≤ 8) →
      ProxiPy.get_duty_cycle s idx =
        .error "Thruster index must be between 1 and 8") ∧
    (∀ (s : ProxiPy.ThrustersState) (ds : List ℚ),
      ds.length ≠ 8 →
      ProxiPy.set_all_duty_cycles s ds =
        .error "Must provide 8 duty cycle values") ∧
    (∀ (s : ProxiPy.ThrustersState) (ds : List ℚ),
      ds.length = 8 →
      ∃ s', ProxiPy.set_all_duty_cycles s ds = .ok s' ∧
        ∀ i, 0 ≤ s'.requested_duty_cycles i ∧
          s'.requested_duty_cycles i ≤ 1) := by
  have hrange : ∀ i : Fin 8, 1 ≤ (i : ℤ) + 1 ∧ (i : ℤ) + 1 ≤ 8 := by
    intro i
    have := i.isLt
    omega
  have hfin : ∀ i : Fin 8, (⟨((i : ℤ) + 1 - 1).toNat, by omega⟩ : Fin 8) = i := by
    intro i
    apply Fin.ext
    simp
  refine ⟨?_, ?_, ?_, ?_, ?_, ?_, ?_, ?_⟩
  · intro s i v
    rw [ProxiPy.set_duty_cycle, if_pos (hrange i)]
    have hif : ((i : ℤ) = (i : ℤ) + 1 - 1) := by omega
    refine ⟨_, rfl, ?_, ?_, ?_, ?_, rfl, rfl⟩
    · show (if ((i : ℤ) = (i : ℤ) + 1 - 1) then max 0 (min 1 v)
        else s.requested_duty_cycles i) = max 0 (min 1 v)
      rw [if_pos hif]
    · show (0 : ℚ) ≤ (if ((i : ℤ) = (i : ℤ) + 1 - 1) then max 0 (min 1 v)
        else s.requested_duty_cycles i)
      rw [if_pos hif]
      exact le_max_left 0 _
    · show (if ((i : ℤ) = (i : ℤ) + 1 - 1) then max 0 (min 1 v)
        else s.requested_duty_cycles i) ≤ 1
      rw [if_pos hif]
      exact max_le (by norm_num) (min_le_left _ _)
    · intro j hj
      show (if ((j : ℤ) = (i : ℤ) + 1 - 1) then max 0 (min 1 v)
        else s.requested_duty_cycles j) = s.requested_duty_cycles j
      rw [if_neg ?_]
      intro hc
      apply hj
      apply Fin.ext
      omega
  · intro s idx v h
    rw [ProxiPy.set_duty_cycle, if_neg h]
  · intro s i
    rw [ProxiPy.get_state, dif_pos (hrange i), hfin i]
  · intro s idx h
    rw [ProxiPy.get_state, dif_neg h]
  · intro s i
    rw [ProxiPy.get_duty_cycle, dif_pos (hrange i), hfin i]
  · intro s idx h
    rw [ProxiPy.get_duty_cycle, dif_neg h]
  · intro s ds h
    rw [ProxiPy.set_all_duty_cycles, if_neg h]
  · intro s ds h
    rw [ProxiPy.set_all_duty_cycles, if_pos h]
    refine ⟨_, rfl, fun i => ⟨?_, ?_⟩⟩
    · show (0 : ℚ) ≤ max 0 (min 1 (ds.getD (i : ℕ) 0))
      exact le_max_left 0 _
    · show max 0 (min 1 (ds.getD (i : ℕ) 0)) ≤ 1
      exact max_le (by norm_num) (min_le_left _ _)

/-- Witness for C10: on a fresh `Thrusters` state, index 9 is rejected by
`set_duty_cycle`, index 0 by `get_state`, and a 1-element list by
`set_all_duty_cycles`. -/
theorem C10_accessors_one_based_and_clamped_witness :
    ProxiPy.set_duty_cycle ProxiPy.thrusters_init 9 (1/2) =
      .error "Thruster index must be between 1 and 8" ∧
    ProxiPy.get_state ProxiPy.thrusters_init 0 =
      .error "Thruster index must be between 1 and 8" ∧
    ProxiPy.set_all_duty_cycles ProxiPy.thrusters_init [1/2] =
      .error "Must provide 8 duty cycle values" :=
  ⟨C10_accessors_one_based_and_clamped.2.1 ProxiPy.thrusters_init 9 (1/2)
      (by decide),
    C10_accessors_one_based_and_clamped.2.2.2.1 ProxiPy.thrusters_init 0
      (by decide),
    C10_accessors_one_based_and_clamped.2.2.2.2.2.2.1 ProxiPy.thrusters_init
      [1/2] (by decide)⟩
